import Mathlib

/-!
Verification of the gotel instrumentation facade

A shallow embedding of the gotel Go library (github.com/iamBelugax/gotel):
configuration options, the metric registry, the span/tracer wrapper, the
provider shutdown aggregation, and the HTTP/DB instrumentation adapters.

Modelling conventions:
- A Go `error` value is `Option String` (`none` = nil, `some msg` otherwise).
- An underlying OpenTelemetry span (`trace.Span`) is modelled as the
  chronological log of the calls made on it (`SpanOp` list), together with
  its start name / kind / start attributes.  The gotel `Span` and `Tracer`
  wrappers are functions on that log, translated line by line from
  `tracing.go`.
- Metric instruments are abstract handles; the measurements made through
  the `CommonMetrics` handles are modelled as a log of `MetricOp` values.
- `float64` quantities that only participate in comparisons and clamping
  (the sampling ratio) are modelled as `Rat`.
- Wall-clock durations are not modelled; a histogram observation records
  only its attribute set.
-/

set_option maxHeartbeats 1000000

namespace Gotel

/-- OpenTelemetry status codes (`go.opentelemetry.io/otel/codes`). -/
inductive Code where
  | unset
  | ok
  | error
deriving DecidableEq, Repr

/-- OpenTelemetry span kinds used by this library. -/
inductive SpanKind where
  | internal
  | server
  | client
deriving DecidableEq, Repr

/-- One call made on an underlying OpenTelemetry span. -/
inductive SpanOp where
  | setAttrs (attrs : List (String × String))
  | setStatus (code : Code) (descr : String)
  | addEvent (name : String)
  | recordError (msg : String)
  | endCall
deriving DecidableEq, Repr

/-- The gotel `Span` wrapper (tracing.go).  The underlying `trace.Span` is
modelled by the start data plus the chronological log `ops` of calls made on
it.  The back-reference to the tracer only serves child-span creation and
carries no state, so it is omitted. -/
structure Span where
  name : String
  kind : SpanKind
  startAttrs : List (String × String)
  ops : List SpanOp
deriving DecidableEq, Repr

/-- tracing.go `NewSpan`: starts a fresh span with the given name, kind and
start attributes (the span-start options). -/
def NewSpan (name : String) (kind : SpanKind) (attrs : List (String × String)) : Span :=
  ⟨name, kind, attrs, []⟩

/-- tracing.go `Span.WithAttributes`: `s.sp.SetAttributes(attrs...)`. -/
def Span.WithAttributes (s : Span) (attrs : List (String × String)) : Span :=
  { s with ops := s.ops ++ [SpanOp.setAttrs attrs] }

/-- tracing.go `Span.WithStatus`: `s.sp.SetStatus(code, description)`. -/
def Span.WithStatus (s : Span) (code : Code) (descr : String) : Span :=
  { s with ops := s.ops ++ [SpanOp.setStatus code descr] }

/-- tracing.go `Span.AddEvent`: `s.sp.AddEvent(name, ...)`. -/
def Span.AddEvent (s : Span) (name : String) : Span :=
  { s with ops := s.ops ++ [SpanOp.addEvent name] }

/-- tracing.go `Span.WithError`: if `err != nil`, `RecordError(err)` then
`SetStatus(codes.Error, err.Error())`; a nil error is a no-op. -/
def Span.WithError (s : Span) (err : Option String) : Span :=
  match err with
  | some e => { s with ops := s.ops ++ [SpanOp.recordError e, SpanOp.setStatus Code.error e] }
  | none => s

/-- tracing.go `Span.End`: `s.sp.End()`. -/
def Span.End (s : Span) : Span :=
  { s with ops := s.ops ++ [SpanOp.endCall] }

/-- tracing.go `Span.EndWithError`: on a non-nil error `WithError`, otherwise
`WithStatus(codes.Ok, "success")`; then `s.sp.End()`. -/
def Span.EndWithError (s : Span) (err : Option String) : Span :=
  Span.End (match err with
    | some _ => Span.WithError s err
    | none => Span.WithStatus s Code.ok "success")

/-- All `SetStatus` calls made on the span, in order. -/
def Span.statusLog (s : Span) : List (Code × String) :=
  s.ops.filterMap fun op =>
    match op with
    | SpanOp.setStatus c d => some (c, d)
    | _ => none

/-- The status the span is left with: the last `SetStatus` call, if any. -/
def Span.finalStatus (s : Span) : Option (Code × String) :=
  s.statusLog.getLast?

/-- All error messages recorded on the span via `RecordError`, in order. -/
def Span.errorsRecorded (s : Span) : List String :=
  s.ops.filterMap fun op =>
    match op with
    | SpanOp.recordError e => some e
    | _ => none

/-- How many times `End` was called on the underlying span. -/
def Span.endCount (s : Span) : Nat :=
  s.ops.count SpanOp.endCall

/-- Whether the span is left marked errored (its final status has code
`error`). -/
def Span.errored (s : Span) : Bool :=
  match s.finalStatus with
  | some (Code.error, _) => true
  | _ => false

/-- tracing.go `Tracer.StartSpan` (= `NewSpan` through the wrapped tracer). -/
def Tracer.StartSpan (name : String) (kind : SpanKind) (attrs : List (String × String)) : Span :=
  NewSpan name kind attrs

/-- tracing.go `Tracer.WithSpan`: starts a span, runs `fn` on it (the model
lets `fn` both transform the span and return a Go error), defers
`span.sp.End()`, and on a non-nil error applies `WithError` and returns the
error; on nil applies `WithStatus(codes.Ok, "success")` and returns nil. -/
def Tracer.WithSpan (name : String) (kind : SpanKind) (attrs : List (String × String))
    (fn : Span → Span × Option String) : Span × Option String :=
  let r := fn (Tracer.StartSpan name kind attrs)
  match r.2 with
  | some e => (Span.End (Span.WithError r.1 (some e)), some e)
  | none => (Span.End (Span.WithStatus r.1 Code.ok "success"), none)

/-- C4: for every span, `EndWithError nil` appends status ok with message
"success" and one end call; `EndWithError err` for non-nil `err` records the
error, sets status error with the error message, and ends the span. -/
theorem C4_EndWithError_spec (s : Span) (e : String) :
    Span.EndWithError s none =
      { s with ops := s.ops ++ [SpanOp.setStatus Code.ok "success", SpanOp.endCall] } ∧
    Span.EndWithError s (some e) =
      { s with ops := s.ops ++
          [SpanOp.recordError e, SpanOp.setStatus Code.error e, SpanOp.endCall] } ∧
    (Span.EndWithError s none).finalStatus = some (Code.ok, "success") ∧
    (Span.EndWithError s (some e)).finalStatus = some (Code.error, e) ∧
    (Span.EndWithError s (some e)).errorsRecorded = s.errorsRecorded ++ [e] ∧
    (Span.EndWithError s none).endCount = s.endCount + 1 ∧
    (Span.EndWithError s (some e)).endCount = s.endCount + 1 := by
  refine ⟨?_, ?_, ?_, ?_, ?_, ?_, ?_⟩ <;>
    simp [Span.EndWithError, Span.End, Span.WithStatus, Span.WithError, Span.finalStatus,
      Span.statusLog, Span.errorsRecorded, Span.endCount, List.filterMap_append,
      List.count_append]

/-- C2: `Tracer.WithSpan` invokes `fn` on the freshly started span, always
ends the span exactly once on return, applies end-with-error semantics to the
error returned by `fn` (its resulting span equals `EndWithError` of the span
state left by `fn` at the error `fn` returned), and returns to its caller
exactly the error that `fn` returned (nil iff `fn` returned nil). -/
theorem C2_WithSpan_spec (name : String) (kind : SpanKind) (attrs : List (String × String))
    (fn : Span → Span × Option String) :
    Tracer.WithSpan name kind attrs fn =
      (Span.EndWithError (fn (Tracer.StartSpan name kind attrs)).1
          (fn (Tracer.StartSpan name kind attrs)).2,
        (fn (Tracer.StartSpan name kind attrs)).2) ∧
    ((Tracer.WithSpan name kind attrs fn).2 = none ↔
      (fn (Tracer.StartSpan name kind attrs)).2 = none) ∧
    (Tracer.WithSpan name kind attrs fn).1.endCount =
      (fn (Tracer.StartSpan name kind attrs)).1.endCount + 1 := by
  rcases h : (fn (Tracer.StartSpan name kind attrs)).2 with _ | e <;>
    simp [Tracer.WithSpan, Span.EndWithError, Span.End, Span.WithStatus, Span.WithError, h,
      Span.endCount, List.count_append]

/-! ## Metric registry (metrics.go, src/unnamed/part_003) -/

/-- Association-list lookup with string keys, modelling Go map indexing
(`m.counters[metricName]`).  Caches grow by consing, so the most recently
stored binding for a key wins; the registry never stores a key twice. -/
def assocFind {α : Type} (k : String) : List (String × α) → Option α
  | [] => none
  | (k2, v) :: rest => if k2 = k then some v else assocFind k rest

/-- An instrument handle created by the meter: its identity, the fully
qualified name it was created under, and the description it was created
with (the meter receives the description through the options slice). -/
structure Instr where
  id : Nat
  qname : String
  descr : String
deriving DecidableEq, Repr

/-- The gotel `MetricRegistry`: a prefix (field `pre` here) and one cache
per instrument kind.  Go maps become association lists.  The meter is an
external collaborator: each get-or-create call takes the result the meter
would return for a creation attempt (`Except String Nat`, an error or a
fresh handle identity). -/
structure MetricRegistry where
  pre : String
  counters : List (String × Instr)
  histograms : List (String × Instr)
  upDownCounters : List (String × Instr)
  gauges : List (String × Instr)
deriving DecidableEq, Repr

/-- Source `NewMetricRegistry`: empty caches. -/
def NewMetricRegistry (pre : String) : MetricRegistry :=
  ⟨pre, [], [], [], []⟩

/-- Source `MetricRegistry.generateMetricName`: qualify with the prefix when the
prefix is non-empty (`fmt.Sprintf("%s_%s", m.prefix, name)`). -/
def MetricRegistry.generateMetricName (m : MetricRegistry) (name : String) : String :=
  if m.pre = "" then name else m.pre ++ "_" ++ name

/-- Source `MetricRegistry.Counter`: qualify the name, return the cached handle on
a hit; otherwise attempt creation, wrap a creation error without caching,
and cache the new handle on success. -/
def MetricRegistry.Counter (m : MetricRegistry) (name descr : String)
    (res : Except String Nat) : MetricRegistry × Except String Instr :=
  let metricName := m.generateMetricName name
  match assocFind metricName m.counters with
  | some counter => (m, Except.ok counter)
  | none =>
    match res with
    | Except.error e =>
        (m, Except.error ("failed to create counter " ++ metricName ++ ": " ++ e))
    | Except.ok i =>
        ({ m with counters := (metricName, ⟨i, metricName, descr⟩) :: m.counters },
          Except.ok ⟨i, metricName, descr⟩)

/-- Source `MetricRegistry.Histogram`: same policy as `Counter` on the histogram
cache. -/
def MetricRegistry.Histogram (m : MetricRegistry) (name descr : String)
    (res : Except String Nat) : MetricRegistry × Except String Instr :=
  let metricName := m.generateMetricName name
  match assocFind metricName m.histograms with
  | some histogram => (m, Except.ok histogram)
  | none =>
    match res with
    | Except.error e =>
        (m, Except.error ("failed to create histogram " ++ metricName ++ ": " ++ e))
    | Except.ok i =>
        ({ m with histograms := (metricName, ⟨i, metricName, descr⟩) :: m.histograms },
          Except.ok ⟨i, metricName, descr⟩)

/-- Source `MetricRegistry.UpDownCounter`: same policy on the up/down-counter
cache. -/
def MetricRegistry.UpDownCounter (m : MetricRegistry) (name descr : String)
    (res : Except String Nat) : MetricRegistry × Except String Instr :=
  let metricName := m.generateMetricName name
  match assocFind metricName m.upDownCounters with
  | some upDownCounter => (m, Except.ok upDownCounter)
  | none =>
    match res with
    | Except.error e =>
        (m, Except.error ("failed to create up/down counter " ++ metricName ++ ": " ++ e))
    | Except.ok i =>
        ({ m with upDownCounters := (metricName, ⟨i, metricName, descr⟩) :: m.upDownCounters },
          Except.ok ⟨i, metricName, descr⟩)

/-- Source `MetricRegistry.Gauge`: same policy on the gauge cache.  The observation
callback is part of the creation options and carries no registry state, so
it is not modelled. -/
def MetricRegistry.Gauge (m : MetricRegistry) (name descr : String)
    (res : Except String Nat) : MetricRegistry × Except String Instr :=
  let metricName := m.generateMetricName name
  match assocFind metricName m.gauges with
  | some gauge => (m, Except.ok gauge)
  | none =>
    match res with
    | Except.error e =>
        (m, Except.error ("failed to create gauge " ++ metricName ++ ": " ++ e))
    | Except.ok i =>
        ({ m with gauges := (metricName, ⟨i, metricName, descr⟩) :: m.gauges },
          Except.ok ⟨i, metricName, descr⟩)

/-- One get-or-create request against the registry, tagged with the result
the meter would return if creation is attempted. -/
inductive RegCall where
  | counter (name descr : String) (res : Except String Nat)
  | histogram (name descr : String) (res : Except String Nat)
  | upDownCounter (name descr : String) (res : Except String Nat)
  | gauge (name descr : String) (res : Except String Nat)

/-- Dispatch one registry call. -/
def regStep (m : MetricRegistry) : RegCall → MetricRegistry × Except String Instr
  | RegCall.counter n d r => m.Counter n d r
  | RegCall.histogram n d r => m.Histogram n d r
  | RegCall.upDownCounter n d r => m.UpDownCounter n d r
  | RegCall.gauge n d r => m.Gauge n d r

/-- Run a sequence of registry calls, keeping the final registry state. -/
def regRun (m : MetricRegistry) : List RegCall → MetricRegistry
  | [] => m
  | c :: cs => regRun (regStep m c).1 cs

/-- A cache holds at most one binding per fully-qualified name. -/
def keysNodup (l : List (String × Instr)) : Prop :=
  (l.map Prod.fst).Nodup

/-- Registry well-formedness: every kind-specific cache has unique keys. -/
def MetricRegistry.wf (m : MetricRegistry) : Prop :=
  keysNodup m.counters ∧ keysNodup m.histograms ∧
    keysNodup m.upDownCounters ∧ keysNodup m.gauges

theorem assocFind_eq_none_iff {α : Type} {k : String} {l : List (String × α)} :
    assocFind k l = none ↔ k ∉ l.map Prod.fst := by
  induction l with
  | nil => simp [assocFind]
  | cons p rest ih =>
    obtain ⟨k2, v⟩ := p
    by_cases h : k2 = k
    · subst h
      simp [assocFind]
    · have h2 : ¬k = k2 := fun hh => h hh.symm
      simp [assocFind, if_neg h, ih, h2]

theorem keysNodup_insert {l : List (String × Instr)} {k : String} {v : Instr}
    (h : keysNodup l) (hf : assocFind k l = none) : keysNodup ((k, v) :: l) := by
  have := assocFind_eq_none_iff.mp hf
  simp only [keysNodup, List.map_cons, List.nodup_cons]
  exact ⟨this, h⟩

theorem regStep_wf {m : MetricRegistry} (h : m.wf) (c : RegCall) :
    ((regStep m c).1).wf := by
  obtain ⟨h1, h2, h3, h4⟩ := h
  cases c with
  | counter n d r =>
    simp only [regStep, MetricRegistry.Counter]
    rcases hf : assocFind (m.generateMetricName n) m.counters with _ | c0
    · rcases r with e | i
      · exact ⟨h1, h2, h3, h4⟩
      · exact ⟨keysNodup_insert h1 hf, h2, h3, h4⟩
    · exact ⟨h1, h2, h3, h4⟩
  | histogram n d r =>
    simp only [regStep, MetricRegistry.Histogram]
    rcases hf : assocFind (m.generateMetricName n) m.histograms with _ | c0
    · rcases r with e | i
      · exact ⟨h1, h2, h3, h4⟩
      · exact ⟨h1, keysNodup_insert h2 hf, h3, h4⟩
    · exact ⟨h1, h2, h3, h4⟩
  | upDownCounter n d r =>
    simp only [regStep, MetricRegistry.UpDownCounter]
    rcases hf : assocFind (m.generateMetricName n) m.upDownCounters with _ | c0
    · rcases r with e | i
      · exact ⟨h1, h2, h3, h4⟩
      · exact ⟨h1, h2, keysNodup_insert h3 hf, h4⟩
    · exact ⟨h1, h2, h3, h4⟩
  | gauge n d r =>
    simp only [regStep, MetricRegistry.Gauge]
    rcases hf : assocFind (m.generateMetricName n) m.gauges with _ | c0
    · rcases r with e | i
      · exact ⟨h1, h2, h3, h4⟩
      · exact ⟨h1, h2, h3, keysNodup_insert h4 hf⟩
    · exact ⟨h1, h2, h3, h4⟩

theorem regRun_wf {m : MetricRegistry} (h : m.wf) (cs : List RegCall) :
    (regRun m cs).wf := by
  induction cs generalizing m with
  | nil => exact h
  | cons c cs ih => exact ih (regStep_wf h c)

theorem newMetricRegistry_wf (p : String) : (NewMetricRegistry p).wf := by
  refine ⟨?_, ?_, ?_, ?_⟩ <;> simp [NewMetricRegistry, keysNodup]

theorem assocFind_insert_of_find {l : List (String × Instr)} {k k2 : String} {c v : Instr}
    (h : assocFind k l = some c) (hf : assocFind k2 l = none) :
    assocFind k ((k2, v) :: l) = some c := by
  have hne : k2 ≠ k := by
    intro he
    subst he
    rw [h] at hf
    exact Option.noConfusion hf
  simp [assocFind, if_neg hne, h]

theorem generateMetricName_update_counters {m : MetricRegistry}
    {l : List (String × Instr)} (n : String) :
    ({ m with counters := l } : MetricRegistry).generateMetricName n =
      m.generateMetricName n := rfl

theorem Counter_hit {m : MetricRegistry} {n d : String} {res : Except String Nat}
    {c : Instr} (hf : assocFind (m.generateMetricName n) m.counters = some c) :
    m.Counter n d res = (m, Except.ok c) := by
  simp [MetricRegistry.Counter, hf]

theorem Counter_miss_ok {m : MetricRegistry} {n d : String} {i : Nat}
    (hf : assocFind (m.generateMetricName n) m.counters = none) :
    m.Counter n d (Except.ok i) =
      ({ m with counters :=
          (m.generateMetricName n, ⟨i, m.generateMetricName n, d⟩) :: m.counters },
        Except.ok ⟨i, m.generateMetricName n, d⟩) := by
  simp [MetricRegistry.Counter, hf]

theorem Histogram_hit {m : MetricRegistry} {n d : String} {res : Except String Nat}
    {c : Instr} (hf : assocFind (m.generateMetricName n) m.histograms = some c) :
    m.Histogram n d res = (m, Except.ok c) := by
  simp [MetricRegistry.Histogram, hf]

theorem Histogram_miss_ok {m : MetricRegistry} {n d : String} {i : Nat}
    (hf : assocFind (m.generateMetricName n) m.histograms = none) :
    m.Histogram n d (Except.ok i) =
      ({ m with histograms :=
          (m.generateMetricName n, ⟨i, m.generateMetricName n, d⟩) :: m.histograms },
        Except.ok ⟨i, m.generateMetricName n, d⟩) := by
  simp [MetricRegistry.Histogram, hf]

theorem UpDownCounter_hit {m : MetricRegistry} {n d : String} {res : Except String Nat}
    {c : Instr} (hf : assocFind (m.generateMetricName n) m.upDownCounters = some c) :
    m.UpDownCounter n d res = (m, Except.ok c) := by
  simp [MetricRegistry.UpDownCounter, hf]

theorem UpDownCounter_miss_ok {m : MetricRegistry} {n d : String} {i : Nat}
    (hf : assocFind (m.generateMetricName n) m.upDownCounters = none) :
    m.UpDownCounter n d (Except.ok i) =
      ({ m with upDownCounters :=
          (m.generateMetricName n, ⟨i, m.generateMetricName n, d⟩) :: m.upDownCounters },
        Except.ok ⟨i, m.generateMetricName n, d⟩) := by
  simp [MetricRegistry.UpDownCounter, hf]

theorem Gauge_hit {m : MetricRegistry} {n d : String} {res : Except String Nat}
    {c : Instr} (hf : assocFind (m.generateMetricName n) m.gauges = some c) :
    m.Gauge n d res = (m, Except.ok c) := by
  simp [MetricRegistry.Gauge, hf]

theorem Gauge_miss_ok {m : MetricRegistry} {n d : String} {i : Nat}
    (hf : assocFind (m.generateMetricName n) m.gauges = none) :
    m.Gauge n d (Except.ok i) =
      ({ m with gauges :=
          (m.generateMetricName n, ⟨i, m.generateMetricName n, d⟩) :: m.gauges },
        Except.ok ⟨i, m.generateMetricName n, d⟩) := by
  simp [MetricRegistry.Gauge, hf]

theorem counter_second_call (m : MetricRegistry) (n d d2 : String) (i : Nat)
    (res2 : Except String Nat) :
    (m.Counter n d (Except.ok i)).1.Counter n d2 res2 =
      ((m.Counter n d (Except.ok i)).1, (m.Counter n d (Except.ok i)).2) := by
  rcases hf : assocFind (m.generateMetricName n) m.counters with _ | c0
  · rw [Counter_miss_ok hf]
    exact Counter_hit (by simp [MetricRegistry.generateMetricName, assocFind])
  · rw [Counter_hit hf, Counter_hit hf]

theorem histogram_second_call (m : MetricRegistry) (n d d2 : String) (i : Nat)
    (res2 : Except String Nat) :
    (m.Histogram n d (Except.ok i)).1.Histogram n d2 res2 =
      ((m.Histogram n d (Except.ok i)).1, (m.Histogram n d (Except.ok i)).2) := by
  rcases hf : assocFind (m.generateMetricName n) m.histograms with _ | c0
  · rw [Histogram_miss_ok hf]
    exact Histogram_hit (by simp [MetricRegistry.generateMetricName, assocFind])
  · rw [Histogram_hit hf, Histogram_hit hf]

theorem upDownCounter_second_call (m : MetricRegistry) (n d d2 : String) (i : Nat)
    (res2 : Except String Nat) :
    (m.UpDownCounter n d (Except.ok i)).1.UpDownCounter n d2 res2 =
      ((m.UpDownCounter n d (Except.ok i)).1, (m.UpDownCounter n d (Except.ok i)).2) := by
  rcases hf : assocFind (m.generateMetricName n) m.upDownCounters with _ | c0
  · rw [UpDownCounter_miss_ok hf]
    exact UpDownCounter_hit (by simp [MetricRegistry.generateMetricName, assocFind])
  · rw [UpDownCounter_hit hf, UpDownCounter_hit hf]

theorem gauge_second_call (m : MetricRegistry) (n d d2 : String) (i : Nat)
    (res2 : Except String Nat) :
    (m.Gauge n d (Except.ok i)).1.Gauge n d2 res2 =
      ((m.Gauge n d (Except.ok i)).1, (m.Gauge n d (Except.ok i)).2) := by
  rcases hf : assocFind (m.generateMetricName n) m.gauges with _ | c0
  · rw [Gauge_miss_ok hf]
    exact Gauge_hit (by simp [MetricRegistry.generateMetricName, assocFind])
  · rw [Gauge_hit hf, Gauge_hit hf]

theorem regStep_counters_persist {m : MetricRegistry} {k : String} {c : Instr}
    (call : RegCall) (h : assocFind k m.counters = some c) :
    assocFind k ((regStep m call).1).counters = some c := by
  cases call with
  | counter n d r =>
    simp only [regStep, MetricRegistry.Counter]
    rcases hf : assocFind (m.generateMetricName n) m.counters with _ | c0
    · rcases r with e | i
      · exact h
      · exact assocFind_insert_of_find h hf
    · exact h
  | histogram n d r =>
    simp only [regStep, MetricRegistry.Histogram]
    rcases hf : assocFind (m.generateMetricName n) m.histograms with _ | c0
    · rcases r with e | i <;> exact h
    · exact h
  | upDownCounter n d r =>
    simp only [regStep, MetricRegistry.UpDownCounter]
    rcases hf : assocFind (m.generateMetricName n) m.upDownCounters with _ | c0
    · rcases r with e | i <;> exact h
    · exact h
  | gauge n d r =>
    simp only [regStep, MetricRegistry.Gauge]
    rcases hf : assocFind (m.generateMetricName n) m.gauges with _ | c0
    · rcases r with e | i <;> exact h
    · exact h

theorem regStep_gauges_persist {m : MetricRegistry} {k : String} {c : Instr}
    (call : RegCall) (h : assocFind k m.gauges = some c) :
    assocFind k ((regStep m call).1).gauges = some c := by
  cases call with
  | counter n d r =>
    simp only [regStep, MetricRegistry.Counter]
    rcases hf : assocFind (m.generateMetricName n) m.counters with _ | c0
    · rcases r with e | i <;> exact h
    · exact h
  | histogram n d r =>
    simp only [regStep, MetricRegistry.Histogram]
    rcases hf : assocFind (m.generateMetricName n) m.histograms with _ | c0
    · rcases r with e | i <;> exact h
    · exact h
  | upDownCounter n d r =>
    simp only [regStep, MetricRegistry.UpDownCounter]
    rcases hf : assocFind (m.generateMetricName n) m.upDownCounters with _ | c0
    · rcases r with e | i <;> exact h
    · exact h
  | gauge n d r =>
    simp only [regStep, MetricRegistry.Gauge]
    rcases hf : assocFind (m.generateMetricName n) m.gauges with _ | c0
    · rcases r with e | i
      · exact h
      · exact assocFind_insert_of_find h hf
    · exact h

/-- C1: after any sequence of get-or-create calls from a fresh registry, each
kind-specific cache binds every fully-qualified name at most once; for every
kind, a second get-or-create call with the same name — whatever description
and meter outcome it carries — returns exactly the handle produced by the
first call and leaves the registry unchanged (the first description wins);
and no registry call ever displaces a cached handle. -/
theorem C1_registry_get_or_create_idempotent (p : String) (calls : List RegCall)
    (m : MetricRegistry) (n d d2 : String) (i : Nat) (res2 : Except String Nat)
    (k : String) (c : Instr) (call : RegCall) :
    (regRun (NewMetricRegistry p) calls).wf ∧
    ((m.Counter n d (Except.ok i)).1.Counter n d2 res2 =
      ((m.Counter n d (Except.ok i)).1, (m.Counter n d (Except.ok i)).2)) ∧
    ((m.Histogram n d (Except.ok i)).1.Histogram n d2 res2 =
      ((m.Histogram n d (Except.ok i)).1, (m.Histogram n d (Except.ok i)).2)) ∧
    ((m.UpDownCounter n d (Except.ok i)).1.UpDownCounter n d2 res2 =
      ((m.UpDownCounter n d (Except.ok i)).1, (m.UpDownCounter n d (Except.ok i)).2)) ∧
    ((m.Gauge n d (Except.ok i)).1.Gauge n d2 res2 =
      ((m.Gauge n d (Except.ok i)).1, (m.Gauge n d (Except.ok i)).2)) ∧
    (assocFind k m.counters = some c →
      assocFind k ((regStep m call).1).counters = some c) ∧
    (assocFind k m.gauges = some c →
      assocFind k ((regStep m call).1).gauges = some c) := by
  exact ⟨regRun_wf (newMetricRegistry_wf p) calls,
    counter_second_call m n d d2 i res2,
    histogram_second_call m n d d2 i res2,
    upDownCounter_second_call m n d d2 i res2,
    gauge_second_call m n d d2 i res2,
    regStep_counters_persist call,
    regStep_gauges_persist call⟩

/-- Closed instance of C1: concrete cached counter and gauge handles survive
an unrelated registry call. -/
theorem C1_registry_get_or_create_idempotent_witness :
    (regRun (NewMetricRegistry "app") [RegCall.counter "req" "d" (Except.ok 0)]).wf ∧
    assocFind "k"
      ((regStep
        (⟨"app", [("k", ⟨1, "k", "dk"⟩)], [], [], [("k", ⟨2, "k", "dk"⟩)]⟩ : MetricRegistry)
        (RegCall.counter "x" "d2" (Except.ok 7))).1).counters = some ⟨1, "k", "dk"⟩ ∧
    assocFind "k"
      ((regStep
        (⟨"app", [("k", ⟨1, "k", "dk"⟩)], [], [], [("k", ⟨2, "k", "dk"⟩)]⟩ : MetricRegistry)
        (RegCall.counter "x" "d2" (Except.ok 7))).1).gauges = some ⟨2, "k", "dk"⟩ := by
  have h := C1_registry_get_or_create_idempotent "app"
    [RegCall.counter "req" "d" (Except.ok 0)]
    (⟨"app", [("k", ⟨1, "k", "dk"⟩)], [], [], [("k", ⟨2, "k", "dk"⟩)]⟩ : MetricRegistry)
    "x" "d" "d2" 7 (Except.ok 0) "k" ⟨1, "k", "dk"⟩
    (RegCall.counter "x" "d2" (Except.ok 7))
  have h2 := C1_registry_get_or_create_idempotent "app"
    [RegCall.counter "req" "d" (Except.ok 0)]
    (⟨"app", [("k", ⟨1, "k", "dk"⟩)], [], [], [("k", ⟨2, "k", "dk"⟩)]⟩ : MetricRegistry)
    "x" "d" "d2" 7 (Except.ok 0) "k" ⟨2, "k", "dk"⟩
    (RegCall.counter "x" "d2" (Except.ok 7))
  exact ⟨h.1, h.2.2.2.2.2.1 (by decide), h2.2.2.2.2.2.2 (by decide)⟩

/-- C8: a get-or-create call whose creation attempt fails leaves the registry
completely unchanged for every instrument kind, so any subsequent registry
call behaves exactly as if the failing call had never happened; on a cache
miss the failure is surfaced as the wrapped creation error. -/
theorem C8_creation_failure_does_not_poison_cache (m : MetricRegistry)
    (n d e : String) (call : RegCall) :
    ((m.Counter n d (Except.error e)).1 = m ∧
      (m.Histogram n d (Except.error e)).1 = m ∧
      (m.UpDownCounter n d (Except.error e)).1 = m ∧
      (m.Gauge n d (Except.error e)).1 = m) ∧
    (regStep (m.Counter n d (Except.error e)).1 call = regStep m call) ∧
    (assocFind (m.generateMetricName n) m.counters = none →
      (m.Counter n d (Except.error e)).2 =
        Except.error ("failed to create counter " ++ m.generateMetricName n ++ ": " ++ e)) := by
  have hc : (m.Counter n d (Except.error e)).1 = m := by
    rcases hf : assocFind (m.generateMetricName n) m.counters with _ | c0 <;>
      simp [MetricRegistry.Counter, hf]
  have hh : (m.Histogram n d (Except.error e)).1 = m := by
    rcases hf : assocFind (m.generateMetricName n) m.histograms with _ | c0 <;>
      simp [MetricRegistry.Histogram, hf]
  have hu : (m.UpDownCounter n d (Except.error e)).1 = m := by
    rcases hf : assocFind (m.generateMetricName n) m.upDownCounters with _ | c0 <;>
      simp [MetricRegistry.UpDownCounter, hf]
  have hg : (m.Gauge n d (Except.error e)).1 = m := by
    rcases hf : assocFind (m.generateMetricName n) m.gauges with _ | c0 <;>
      simp [MetricRegistry.Gauge, hf]
  refine ⟨⟨hc, hh, hu, hg⟩, by rw [hc], ?_⟩
  intro hf
  simp [MetricRegistry.Counter, hf]

/-- Closed instance of C8: a failing creation on a fresh registry returns the
wrapped error and the cache stays empty. -/
theorem C8_creation_failure_does_not_poison_cache_witness :
    ((NewMetricRegistry "").Counter "reqs" "d" (Except.error "boom")).1 =
      NewMetricRegistry "" ∧
    ((NewMetricRegistry "").Counter "reqs" "d" (Except.error "boom")).2 =
      Except.error ("failed to create counter reqs: boom") := by
  have h := C8_creation_failure_does_not_poison_cache (NewMetricRegistry "") "reqs" "d" "boom"
    (RegCall.counter "reqs" "d" (Except.ok 0))
  refine ⟨h.1.1, ?_⟩
  have := h.2.2 (by decide)
  simpa [MetricRegistry.generateMetricName, NewMetricRegistry] using this

/-- The gotel `CommonMetrics` bundle: the eight pre-registered instrument
handles (the back-reference to the registry is not part of the bundle
observable data). -/
structure CommonMetrics where
  HTTPRequestsTotal : Instr
  HTTPRequestDuration : Instr
  HTTPActiveRequests : Instr
  DBConnectionsActive : Instr
  DBQueriesTotal : Instr
  DBQueryDuration : Instr
  ErrorsTotal : Instr
  StartTime : Instr
deriving DecidableEq, Repr

/-- Source `NewCommonMetrics`: bootstraps the eight common instruments in source
order, failing fast at the first creation error.  `o k` is the meter
response to the k-th instrument creation.  As in the source, the start-time
gauge is requested under `registry.generateMetricName("start_time_seconds")`,
which `Gauge` then qualifies again. -/
def NewCommonMetrics (m0 : MetricRegistry) (o : Nat → Except String Nat) :
    Except String (MetricRegistry × CommonMetrics) :=
  let r1 := m0.Counter "http_requests_total" "Total number of HTTP requests" (o 0)
  match r1.2 with
  | Except.error e => Except.error e
  | Except.ok httpRequestsTotal =>
  let r2 := r1.1.Histogram "http_request_duration_seconds"
    "Duration of HTTP requests in seconds" (o 1)
  match r2.2 with
  | Except.error e => Except.error e
  | Except.ok httpRequestDuration =>
  let r3 := r2.1.UpDownCounter "http_active_requests" "Number of active HTTP requests" (o 2)
  match r3.2 with
  | Except.error e => Except.error e
  | Except.ok httpActiveRequests =>
  let r4 := r3.1.UpDownCounter "db_connections_active"
    "Number of active database connections" (o 3)
  match r4.2 with
  | Except.error e => Except.error e
  | Except.ok dbConnectionsActive =>
  let r5 := r4.1.Counter "db_queries_total" "Total number of database queries" (o 4)
  match r5.2 with
  | Except.error e => Except.error e
  | Except.ok dbQueriesTotal =>
  let r6 := r5.1.Histogram "db_query_duration_seconds"
    "Duration of database queries in seconds" (o 5)
  match r6.2 with
  | Except.error e => Except.error e
  | Except.ok dbQueryDuration =>
  let r7 := r6.1.Counter "errors_total" "Total number of errors" (o 6)
  match r7.2 with
  | Except.error e => Except.error e
  | Except.ok errorsTotal =>
  let r8 := r7.1.Gauge (r7.1.generateMetricName "start_time_seconds")
    "Unix timestamp of when the application started" (o 7)
  match r8.2 with
  | Except.error e => Except.error e
  | Except.ok startTime =>
  Except.ok (r8.1,
    ⟨httpRequestsTotal, httpRequestDuration, httpActiveRequests, dbConnectionsActive,
      dbQueriesTotal, dbQueryDuration, errorsTotal, startTime⟩)

/-- A meter whose every creation attempt succeeds, handing out distinct
instrument identities. -/
def okMeter : Nat → Except String Nat :=
  fun i => Except.ok i

/-- On success, the fully-qualified names the eight common instruments were
registered under, in bundle order. -/
def cmNames (r : Except String (MetricRegistry × CommonMetrics)) : Option (List String) :=
  match r with
  | Except.ok (_, cm) =>
    some [cm.HTTPRequestsTotal.qname, cm.HTTPRequestDuration.qname,
      cm.HTTPActiveRequests.qname, cm.DBConnectionsActive.qname,
      cm.DBQueriesTotal.qname, cm.DBQueryDuration.qname,
      cm.ErrorsTotal.qname, cm.StartTime.qname]
  | Except.error _ => none

theorem string_append_cancel_left {p a b : String} (h : p ++ a = p ++ b) : a = b := by
  apply String.ext
  have hd := congrArg String.data h
  rw [String.data_append, String.data_append] at hd
  exact List.append_cancel_left hd

theorem string_append_ne {p a b : String} (h : a ≠ b) : p ++ a ≠ p ++ b :=
  fun hc => h (string_append_cancel_left hc)

/-- C9: bootstrapping the common metrics on a registry with a non-empty
prefix `p` registers the start-time gauge under the doubly-qualified name
`p_p_start_time_seconds` (the name is pre-qualified before `Gauge` qualifies
it again), while the other seven instruments carry the prefix exactly once;
with an empty prefix all eight names are the bare names. -/
theorem C9_start_time_gauge_double_qualified (p : String) :
    (p ≠ "" →
      cmNames (NewCommonMetrics (NewMetricRegistry p) okMeter) =
        some [p ++ "_" ++ "http_requests_total",
          p ++ "_" ++ "http_request_duration_seconds",
          p ++ "_" ++ "http_active_requests",
          p ++ "_" ++ "db_connections_active",
          p ++ "_" ++ "db_queries_total",
          p ++ "_" ++ "db_query_duration_seconds",
          p ++ "_" ++ "errors_total",
          p ++ "_" ++ (p ++ "_" ++ "start_time_seconds")]) ∧
    cmNames (NewCommonMetrics (NewMetricRegistry "") okMeter) =
      some ["http_requests_total", "http_request_duration_seconds",
        "http_active_requests", "db_connections_active", "db_queries_total",
        "db_query_duration_seconds", "errors_total", "start_time_seconds"] := by
  constructor
  · intro hp
    have ne1 : (p ++ "_" ++ "http_active_requests") ≠ (p ++ "_" ++ "db_connections_active") :=
      string_append_ne (by decide)
    have ne2 : (p ++ "_" ++ "http_requests_total") ≠ (p ++ "_" ++ "db_queries_total") :=
      string_append_ne (by decide)
    have ne3 : (p ++ "_" ++ "http_request_duration_seconds") ≠
        (p ++ "_" ++ "db_query_duration_seconds") :=
      string_append_ne (by decide)
    have ne4 : (p ++ "_" ++ "db_queries_total") ≠ (p ++ "_" ++ "errors_total") :=
      string_append_ne (by decide)
    have ne5 : (p ++ "_" ++ "http_requests_total") ≠ (p ++ "_" ++ "errors_total") :=
      string_append_ne (by decide)
    simp [NewCommonMetrics, okMeter, MetricRegistry.Counter, MetricRegistry.Histogram,
      MetricRegistry.UpDownCounter, MetricRegistry.Gauge, MetricRegistry.generateMetricName,
      NewMetricRegistry, assocFind, hp, ne1, ne2, ne3, ne4, ne5, cmNames]
  · simp [NewCommonMetrics, okMeter, MetricRegistry.Counter, MetricRegistry.Histogram,
      MetricRegistry.UpDownCounter, MetricRegistry.Gauge, MetricRegistry.generateMetricName,
      NewMetricRegistry, assocFind, cmNames]

/-- Closed instance of C9 at the prefix "app". -/
theorem C9_start_time_gauge_double_qualified_witness :
    cmNames (NewCommonMetrics (NewMetricRegistry "app") okMeter) =
      some ["app" ++ "_" ++ "http_requests_total",
        "app" ++ "_" ++ "http_request_duration_seconds",
        "app" ++ "_" ++ "http_active_requests",
        "app" ++ "_" ++ "db_connections_active",
        "app" ++ "_" ++ "db_queries_total",
        "app" ++ "_" ++ "db_query_duration_seconds",
        "app" ++ "_" ++ "errors_total",
        "app" ++ "_" ++ ("app" ++ "_" ++ "start_time_seconds")] :=
  (C9_start_time_gauge_double_qualified "app").1 (by decide)

/-! ## Configuration surface (config.go, src/unnamed/part_005) -/

/-- Go map assignment `m[k] = v` on an association-list model: overwrite the
existing binding or add one. -/
def mapInsert {α : Type} : List (String × α) → String → α → List (String × α)
  | [], k, v => [(k, v)]
  | (k2, v2) :: rest, k, v =>
    if k2 = k then (k, v) :: rest else (k2, v2) :: mapInsert rest k v

/-- Go `maps.Copy(dst, src)`: insert every binding of `src` into `dst`. -/
def mapCopy {α : Type} (dst src : List (String × α)) : List (String × α) :=
  src.foldl (fun acc kv => mapInsert acc kv.1 kv.2) dst

/-- config.go `ServiceInfo`. -/
structure ServiceInfo where
  Name : String
  Version : String
  Environment : String
deriving DecidableEq, Repr

/-- config.go `ExporterConfig`; `time.Duration` values are nanosecond
integers. -/
structure ExporterConfig where
  Endpoint : String
  Headers : List (String × String)
  ExportTimeout : Int
  BatchTimeout : Int
deriving DecidableEq, Repr

/-- config.go `TracingConfig`; the float64 sampling ratio is modelled as a
rational. -/
structure TracingConfig where
  SamplingRatio : Rat
deriving DecidableEq, Repr

/-- config.go `SecurityConfig`; a transport credential is an abstract handle
(`none` = Go nil). -/
structure SecurityConfig where
  Insecure : Bool
  TLSCredentials : Option Nat
deriving DecidableEq, Repr

/-- config.go `config`; resource-attribute values (Go `any`) are abstracted
to strings, which is how the provider eventually coerces them. -/
structure Config where
  Service : ServiceInfo
  Exporter : ExporterConfig
  Tracing : TracingConfig
  Security : SecurityConfig
  ResourceAttrs : List (String × String)
  Debug : Bool
deriving DecidableEq, Repr

/-- The closed set of functional options of config.go (Go type `Option`). -/
inductive ConfigOption where
  | withServiceInfo (name version environment : String)
  | withEndpoint (endpoint : String)
  | withHeader (key val : String)
  | withHeaders (headers : List (String × String))
  | withExportTimeout (timeout : Int)
  | withBatchTimeout (timeout : Int)
  | withSamplingRatio (ratio : Rat)
  | withResourceAttr (key value : String)
  | withResourceAttrs (attrs : List (String × String))
  | withDebug (debug : Bool)
  | withInsecure (insecure : Bool)
  | withTLSCredentials (creds : Nat)

/-- Application of one option to the config, translated clause by clause
from config.go.  `withSamplingRatio` clamps at assignment time exactly as
the source does (two sequential comparisons). -/
def applyOption (o : ConfigOption) (c : Config) : Config :=
  match o with
  | ConfigOption.withServiceInfo name version environment =>
      { c with Service := ⟨name, version, environment⟩ }
  | ConfigOption.withEndpoint endpoint =>
      { c with Exporter := { c.Exporter with Endpoint := endpoint } }
  | ConfigOption.withHeader key val =>
      { c with Exporter :=
          { c.Exporter with Headers := mapInsert c.Exporter.Headers key val } }
  | ConfigOption.withHeaders headers =>
      { c with Exporter :=
          { c.Exporter with Headers := mapCopy c.Exporter.Headers headers } }
  | ConfigOption.withExportTimeout timeout =>
      { c with Exporter := { c.Exporter with ExportTimeout := timeout } }
  | ConfigOption.withBatchTimeout timeout =>
      { c with Exporter := { c.Exporter with BatchTimeout := timeout } }
  | ConfigOption.withSamplingRatio ratio =>
      let ratio := if ratio < 0 then 0 else ratio
      let ratio := if ratio > 1 then 1 else ratio
      { c with Tracing := { SamplingRatio := ratio } }
  | ConfigOption.withResourceAttr key value =>
      { c with ResourceAttrs := mapInsert c.ResourceAttrs key value }
  | ConfigOption.withResourceAttrs attrs =>
      { c with ResourceAttrs := mapCopy c.ResourceAttrs attrs }
  | ConfigOption.withDebug debug =>
      { c with Debug := debug }
  | ConfigOption.withInsecure insecure =>
      { c with Security := ⟨insecure, none⟩ }
  | ConfigOption.withTLSCredentials creds =>
      { c with Security := ⟨false, some creds⟩ }

/-- config.go `DefaultConfig`: the development defaults, then the options in
order. -/
def DefaultConfig (serviceName : String) (opts : List ConfigOption) : Config :=
  let conf : Config :=
    { Debug := false
      Service := ⟨serviceName, "1.0.0", "development"⟩
      ResourceAttrs := []
      Security := ⟨true, none⟩
      Tracing := ⟨1⟩
      Exporter :=
        { Endpoint := "localhost:4317"
          Headers := []
          BatchTimeout := 5 * 1000000000
          ExportTimeout := 30 * 1000000000 } }
  opts.foldl (fun c o => applyOption o c) conf

/-- src/unnamed/part_005 `Config.WithSamplingRatio` (both builder-style
variants have this identical body): clamp, then store. -/
def Config.WithSamplingRatio (c : Config) (ratio : Rat) : Config :=
  let ratio := if ratio < 0 then 0 else ratio
  let ratio := if ratio > 1 then 1 else ratio
  { c with Tracing := { SamplingRatio := ratio } }

theorem ratio_clamp_eq (r : Rat) :
    (if (if r < 0 then (0 : Rat) else r) > 1 then (1 : Rat)
      else if r < 0 then (0 : Rat) else r) = max 0 (min 1 r) := by
  by_cases h0 : r < 0
  · have hm : min 1 r = r := min_eq_right (by linarith)
    have hx : max 0 (min 1 r) = 0 := by rw [hm]; exact max_eq_left (le_of_lt h0)
    simp [h0, hx]
  · by_cases h1 : r > 1
    · have hm : min 1 r = 1 := min_eq_left (by linarith)
      have hx : max 0 (min 1 r) = 1 := by rw [hm]; exact max_eq_right (by norm_num)
      simp [h0, h1, hx]
    · have hm : min 1 r = r := min_eq_right (by linarith)
      have hx : max 0 (min 1 r) = r := by rw [hm]; exact max_eq_right (by linarith)
      simp [h0, h1, hx]

theorem applyOption_ratio_bounds {c : Config} (h0 : 0 ≤ c.Tracing.SamplingRatio)
    (h1 : c.Tracing.SamplingRatio ≤ 1) (o : ConfigOption) :
    0 ≤ (applyOption o c).Tracing.SamplingRatio ∧
      (applyOption o c).Tracing.SamplingRatio ≤ 1 := by
  cases o with
  | withSamplingRatio r =>
    simp only [applyOption]
    rw [ratio_clamp_eq]
    exact ⟨le_max_left 0 (min 1 r), max_le (by norm_num) (min_le_left 1 r)⟩
  | _ => exact ⟨h0, h1⟩

theorem foldl_applyOption_ratio_bounds {c : Config} (h0 : 0 ≤ c.Tracing.SamplingRatio)
    (h1 : c.Tracing.SamplingRatio ≤ 1) (opts : List ConfigOption) :
    0 ≤ (opts.foldl (fun c o => applyOption o c) c).Tracing.SamplingRatio ∧
      (opts.foldl (fun c o => applyOption o c) c).Tracing.SamplingRatio ≤ 1 := by
  induction opts generalizing c with
  | nil => exact ⟨h0, h1⟩
  | cons o rest ih =>
    obtain ⟨g0, g1⟩ := applyOption_ratio_bounds h0 h1 o
    exact ih g0 g1

/-- C5: every mutation site of the sampling ratio clamps to [0,1]: the
functional option stores exactly `clamp(r, 0, 1)` while every other option
leaves the ratio untouched, the builder-style setter of the alternate config
surface stores `clamp(r, 0, 1)` as well, any option sequence applied to the
defaults keeps the stored ratio in [0,1], and in particular requesting 3/2
stores 1 and requesting -1/10 stores 0. -/
theorem C5_sampling_ratio_clamped (o : ConfigOption) (c : Config) (r : Rat)
    (s : String) (opts : List ConfigOption) :
    ((applyOption o c).Tracing.SamplingRatio =
      match o with
      | ConfigOption.withSamplingRatio r2 => max 0 (min 1 r2)
      | _ => c.Tracing.SamplingRatio) ∧
    ((Config.WithSamplingRatio c r).Tracing.SamplingRatio = max 0 (min 1 r)) ∧
    (0 ≤ (DefaultConfig s opts).Tracing.SamplingRatio ∧
      (DefaultConfig s opts).Tracing.SamplingRatio ≤ 1) ∧
    (applyOption (ConfigOption.withSamplingRatio (3 / 2)) c).Tracing.SamplingRatio = 1 ∧
    (applyOption (ConfigOption.withSamplingRatio (-1 / 10)) c).Tracing.SamplingRatio = 0 := by
  refine ⟨?_, ?_, ?_, ?_, ?_⟩
  · cases o with
    | withSamplingRatio r2 =>
      simp only [applyOption]
      rw [ratio_clamp_eq]
    | _ => rfl
  · simp only [Config.WithSamplingRatio]
    rw [ratio_clamp_eq]
  · exact foldl_applyOption_ratio_bounds (by norm_num) (by norm_num) opts
  · simp only [applyOption]
    norm_num
  · simp only [applyOption]
    norm_num

/-! ## Provider shutdown (src/unnamed/part_001) -/

/-- Go `fmt.Sprintf("%v", errs)` on a slice of errors: the entries separated
by spaces inside brackets. -/
def goErrSlice (es : List String) : String :=
  "[" ++ String.intercalate " " es ++ "]"

/-- The error list `Provider.Shutdown` accumulates: each sub-provider
shutdown is attempted in turn (trace, metric, log) and each failure is
wrapped with its stage name.  A sub-provider shutdown result is
`Option String` (`none` = success). -/
def shutdownErrs (traceRes metricRes logRes : Option String) : List String :=
  (match traceRes with
    | some e => ["failed to shutdown trace provider: " ++ e]
    | none => []) ++
  (match metricRes with
    | some e => ["failed to shutdown metric provider: " ++ e]
    | none => []) ++
  (match logRes with
    | some e => ["failed to shutdown log provider: " ++ e]
    | none => [])

/-- Source `Provider.Shutdown` of the three-signal provider: attempt all three
shutdowns, then aggregate the collected failures into one composite error,
or return nil when there were none. -/
def Provider.Shutdown (traceRes metricRes logRes : Option String) : Option String :=
  let errs := shutdownErrs traceRes metricRes logRes
  if errs.length > 0 then
    some ("shutdown failed with errors: " ++ goErrSlice errs)
  else
    none

/-- C3: shutdown returns nil exactly when all three sub-provider shutdowns
succeed; every failing sub-provider contributes its wrapped error to the
collected list regardless of the other outcomes (all three are attempted),
the list has exactly one entry per failing sub-provider, and any failure
makes shutdown return the single composite error aggregating the whole
list. -/
theorem C3_shutdown_aggregates_all_failures (rt rm rl : Option String) :
    (Provider.Shutdown rt rm rl = none ↔ rt = none ∧ rm = none ∧ rl = none) ∧
    (∀ e, rt = some e →
      ("failed to shutdown trace provider: " ++ e) ∈ shutdownErrs rt rm rl) ∧
    (∀ e, rm = some e →
      ("failed to shutdown metric provider: " ++ e) ∈ shutdownErrs rt rm rl) ∧
    (∀ e, rl = some e →
      ("failed to shutdown log provider: " ++ e) ∈ shutdownErrs rt rm rl) ∧
    ((shutdownErrs rt rm rl).length =
      (if rt = none then 0 else 1) + (if rm = none then 0 else 1) +
        (if rl = none then 0 else 1)) ∧
    (¬(rt = none ∧ rm = none ∧ rl = none) →
      Provider.Shutdown rt rm rl =
        some ("shutdown failed with errors: " ++ goErrSlice (shutdownErrs rt rm rl))) := by
  rcases rt with _ | et <;> rcases rm with _ | em <;> rcases rl with _ | el <;>
    simp [Provider.Shutdown, shutdownErrs]

/-- Closed instance of C3: trace and metric shutdowns fail while the log
shutdown succeeds; both failures are reported, jointly; the all-healthy call
returns nil. -/
theorem C3_shutdown_aggregates_all_failures_witness :
    Provider.Shutdown (some "x") (some "y") none =
      some ("shutdown failed with errors: " ++ goErrSlice
        (shutdownErrs (some "x") (some "y") none)) ∧
    ("failed to shutdown trace provider: " ++ "x") ∈
      shutdownErrs (some "x") (some "y") none ∧
    ("failed to shutdown metric provider: " ++ "y") ∈
      shutdownErrs (some "x") (some "y") none ∧
    ("failed to shutdown log provider: " ++ "z") ∈
      shutdownErrs none none (some "z") ∧
    Provider.Shutdown none none none = none := by
  have h := C3_shutdown_aggregates_all_failures (some "x") (some "y") none
  have h2 := C3_shutdown_aggregates_all_failures none none (some "z")
  have h3 := C3_shutdown_aggregates_all_failures none none none
  exact ⟨h.2.2.2.2.2 (by simp), h.2.1 "x" rfl, h.2.2.1 "y" rfl,
    h2.2.2.2.1 "z" rfl, h3.1.mpr ⟨rfl, rfl, rfl⟩⟩

/-! ## Instrumentation adapters (src/unnamed/part_006, database.go) -/

/-- The CommonMetrics handles the adapters measure through. -/
inductive InstrId where
  | httpRequestsTotal
  | httpRequestDuration
  | httpActiveRequests
  | dbQueriesTotal
  | dbQueryDuration
deriving DecidableEq, Repr

/-- One measurement made through a CommonMetrics handle: a counter or
up/down-counter `Add`, or a histogram `Record` (the recorded duration value
is wall-clock time and not modelled, only the observation and its
attributes). -/
inductive MetricOp where
  | add (i : InstrId) (v : Int) (attrs : List (String × String))
  | record (i : InstrId) (attrs : List (String × String))
deriving DecidableEq, Repr

/-- The `Add` calls made on instrument `i`, in order, with value and
attributes. -/
def addsTo (ms : List MetricOp) (i : InstrId) : List (Int × List (String × String)) :=
  ms.filterMap fun op =>
    match op with
    | MetricOp.add j v a => if j = i then some (v, a) else none
    | _ => none

/-- The `Record` observations made on instrument `i`, in order. -/
def recordsTo (ms : List MetricOp) (i : InstrId) : List (List (String × String)) :=
  ms.filterMap fun op =>
    match op with
    | MetricOp.record j a => if j = i then some a else none
    | _ => none

/-- Net change of an up/down counter over the request. -/
def gaugeNet (ms : List MetricOp) (i : InstrId) : Int :=
  ((addsTo ms i).map Prod.fst).sum

/-- part_006 `responseWriter`: the status code starts as 200
(`http.StatusOK`) and every `WriteHeader` call of the wrapped handler
overwrites it. -/
def respStatus (writes : List Nat) : Nat :=
  (writes.getLast?).getD 200

/-- part_006 `HTTPMiddleware.Handler` on one inbound request, returning the
request span and the metric operations in program order.  `method`, `path`
and `url` come from the request; `writes` is the sequence of `WriteHeader`
calls the wrapped handler makes.  The gauge decrement and the span end are
deferred, so they run after the handler and the other recordings. -/
def HTTPMiddleware.Handler (method path url : String) (writes : List Nat) :
    Span × List MetricOp :=
  let spanName := method ++ " " ++ path
  let span0 := Tracer.StartSpan spanName SpanKind.server
    [("url.path", url), ("http.request.method", method)]
  let attrs := [("method", method), ("route", path)]
  let statusCode := respStatus writes
  let span1 := span0.WithAttributes [("http.response.status_code", toString statusCode)]
  let span2 :=
    if statusCode ≥ 400 then span1.WithStatus Code.error "HTTP Request Failed" else span1
  let statusAttrs := attrs ++ [("status_code", toString statusCode)]
  (span2.End,
    [MetricOp.add InstrId.httpActiveRequests 1 attrs,
      MetricOp.add InstrId.httpRequestsTotal 1 statusAttrs,
      MetricOp.record InstrId.httpRequestDuration attrs,
      MetricOp.add InstrId.httpActiveRequests (-1) attrs])

/-- database.go `dbTracer.Trace`: client span named "db.query" tagged with
query text / db system / namespace; run the operation (summarised by the
error it returns); record query count and duration regardless of outcome;
on error `WithError` then `WithStatus(codes.Error, ...)`; the span end is
deferred; return the operation error. -/
def dbTracer.Trace (dbName dbType query : String) (err : Option String) :
    Span × List MetricOp × Option String :=
  let span0 := Tracer.StartSpan "db.query" SpanKind.client
    [("db.query.text", query), ("db.system", dbType), ("db.namespace", dbName)]
  let attrs := [("db_name", dbName), ("db_type", dbType)]
  let ms := [MetricOp.add InstrId.dbQueriesTotal 1 attrs,
    MetricOp.record InstrId.dbQueryDuration attrs]
  let span1 :=
    match err with
    | some e => (span0.WithError (some e)).WithStatus Code.error e
    | none => span0
  (span1.End, ms, err)

/-- database.go `TracedDB.QueryContext`: the underlying call produces a
result and an error (`underlying`); the closure hands the error to the
tracing helper and the method returns the captured result and error
unchanged. -/
def TracedDB.QueryContext {α : Type} (dbName dbType query : String)
    (underlying : α × Option String) : (α × Option String) × Span × List MetricOp :=
  let t := dbTracer.Trace dbName dbType query underlying.2
  ((underlying.1, underlying.2), t.1, t.2.1)

/-- database.go `TracedDB.ExecContext`: same shape as `QueryContext`. -/
def TracedDB.ExecContext {α : Type} (dbName dbType query : String)
    (underlying : α × Option String) : (α × Option String) × Span × List MetricOp :=
  let t := dbTracer.Trace dbName dbType query underlying.2
  ((underlying.1, underlying.2), t.1, t.2.1)

/-- database.go `TracedDB.QueryRowContext`: the closure stores the row and
returns nil unconditionally, so the tracing helper always sees a nil
error. -/
def TracedDB.QueryRowContext {α : Type} (dbName dbType query : String)
    (row : α) : α × Span × List MetricOp :=
  let t := dbTracer.Trace dbName dbType query none
  (row, t.1, t.2.1)

/-- database.go `TracedStmt.QueryRowContext`: identical policy on a prepared
statement (the stored statement query text is `query`). -/
def TracedStmt.QueryRowContext {α : Type} (dbName dbType query : String)
    (row : α) : α × Span × List MetricOp :=
  let t := dbTracer.Trace dbName dbType query none
  (row, t.1, t.2.1)

/-- database.go `TracedTx.QueryRowContext`: identical policy inside a
transaction. -/
def TracedTx.QueryRowContext {α : Type} (dbName dbType query : String)
    (row : α) : α × Span × List MetricOp :=
  let t := dbTracer.Trace dbName dbType query none
  (row, t.1, t.2.1)

/-- C6: when the wrapped handler writes status 404, the middleware leaves
the active-request gauge at its pre-request value (one +1 before the handler
and one unconditional -1 afterward), increments the request counter exactly
once with status label "404", records exactly one duration observation with
the method/route attributes, marks the span errored, and ends it exactly
once. -/
theorem C6_http_middleware_404 (method path url : String) :
    gaugeNet (HTTPMiddleware.Handler method path url [404]).2
        InstrId.httpActiveRequests = 0 ∧
    addsTo (HTTPMiddleware.Handler method path url [404]).2 InstrId.httpActiveRequests =
      [(1, [("method", method), ("route", path)]),
        (-1, [("method", method), ("route", path)])] ∧
    addsTo (HTTPMiddleware.Handler method path url [404]).2 InstrId.httpRequestsTotal =
      [(1, [("method", method), ("route", path), ("status_code", "404")])] ∧
    recordsTo (HTTPMiddleware.Handler method path url [404]).2 InstrId.httpRequestDuration =
      [[("method", method), ("route", path)]] ∧
    (HTTPMiddleware.Handler method path url [404]).1.errored = true ∧
    (HTTPMiddleware.Handler method path url [404]).1.endCount = 1 := by
  have h404 : toString (404 : Nat) = "404" := rfl
  refine ⟨?_, ?_, ?_, ?_, ?_, ?_⟩ <;>
    simp [HTTPMiddleware.Handler, respStatus, Tracer.StartSpan, NewSpan,
      Span.WithAttributes, Span.WithStatus, Span.End, Span.errored, Span.finalStatus,
      Span.statusLog, Span.endCount, addsTo, recordsTo, gaugeNet, h404]

/-- C7: the DB tracing helper records the query-count increment and exactly
one duration observation whether or not the operation fails, returns the
operation error unchanged, and on failure records the error on the span
and leaves the span status error with the error message; the query/exec
wrappers return the underlying result-error pair unchanged. -/
theorem C7_db_trace_passthrough {α : Type} (dbName dbType query : String)
    (err : Option String) (underlying : α × Option String) :
    ((dbTracer.Trace dbName dbType query err).2.2 = err) ∧
    addsTo (dbTracer.Trace dbName dbType query err).2.1 InstrId.dbQueriesTotal =
      [(1, [("db_name", dbName), ("db_type", dbType)])] ∧
    recordsTo (dbTracer.Trace dbName dbType query err).2.1 InstrId.dbQueryDuration =
      [[("db_name", dbName), ("db_type", dbType)]] ∧
    ((dbTracer.Trace dbName dbType query err).1.errorsRecorded =
      match err with
      | some e => [e]
      | none => []) ∧
    ((dbTracer.Trace dbName dbType query err).1.finalStatus =
      match err with
      | some e => some (Code.error, e)
      | none => none) ∧
    (dbTracer.Trace dbName dbType query err).1.endCount = 1 ∧
    (TracedDB.QueryContext dbName dbType query underlying).1 = underlying ∧
    (TracedDB.ExecContext dbName dbType query underlying).1 = underlying := by
  rcases err with _ | e <;>
    refine ⟨?_, ?_, ?_, ?_, ?_, ?_, ?_, ?_⟩ <;>
    simp [dbTracer.Trace, TracedDB.QueryContext, TracedDB.ExecContext, Tracer.StartSpan,
      NewSpan, Span.WithError, Span.WithStatus, Span.End, Span.errorsRecorded,
      Span.finalStatus, Span.statusLog, Span.endCount, addsTo, recordsTo]

/-- C10: every QueryRowContext wrapper routes a callback that returns nil,
so the db.query span is never marked errored and records no error event —
whatever error the returned row carries — while the query-count increment
and the single duration observation still happen; the row is returned
unchanged, and the statement and transaction wrappers behave identically to
the DB one. -/
theorem C10_queryrow_span_never_errored {α : Type} (dbName dbType query : String)
    (row : α) :
    (TracedDB.QueryRowContext dbName dbType query row).1 = row ∧
    (TracedDB.QueryRowContext dbName dbType query row).2.1.errored = false ∧
    (TracedDB.QueryRowContext dbName dbType query row).2.1.errorsRecorded = [] ∧
    (TracedDB.QueryRowContext dbName dbType query row).2.1.name = "db.query" ∧
    addsTo (TracedDB.QueryRowContext dbName dbType query row).2.2 InstrId.dbQueriesTotal =
      [(1, [("db_name", dbName), ("db_type", dbType)])] ∧
    recordsTo (TracedDB.QueryRowContext dbName dbType query row).2.2
        InstrId.dbQueryDuration = [[("db_name", dbName), ("db_type", dbType)]] ∧
    TracedStmt.QueryRowContext dbName dbType query row =
      TracedDB.QueryRowContext dbName dbType query row ∧
    TracedTx.QueryRowContext dbName dbType query row =
      TracedDB.QueryRowContext dbName dbType query row := by
  refine ⟨?_, ?_, ?_, ?_, ?_, ?_, rfl, rfl⟩ <;>
    simp [TracedDB.QueryRowContext, dbTracer.Trace, Tracer.StartSpan, NewSpan,
      Span.End, Span.errored, Span.errorsRecorded, Span.finalStatus, Span.statusLog,
      addsTo, recordsTo]

end Gotel
